import Mathlib

/-!
# Verification of the Alteryx Gallery API client signing core

Shallow embedding of `alteryx_server_api/alteryx_gallery_api_v3_compatible.py`.
Bytes are modelled as natural numbers below 256; Python `bytes` values are
`List Nat`.  Python library primitives used by the source
(`urllib.parse.quote`, `urllib.parse.urlencode`, `hashlib.sha1`, `hmac`,
`base64.b64encode`, the `ascii` codec, `sorted`) are embedded faithfully at
the byte level below.
-/

namespace AlteryxGallery

/-! ## UTF-8 and ASCII codecs (Python `str.encode`) -/

/-- UTF-8 encoding of a single Unicode code point, as used by Python when a
`str` is encoded to bytes.  Lead/continuation bytes are expressed with `/`
and `%` (equivalent to the usual shift-and-mask form). -/
def utf8Char (c : Nat) : List Nat :=
  if c < 0x80 then [c]
  else if c < 0x800 then [0xC0 + c / 64, 0x80 + c % 64]
  else if c < 0x10000 then [0xE0 + c / 4096, 0x80 + (c / 64) % 64, 0x80 + c % 64]
  else [0xF0 + c / 262144, 0x80 + (c / 4096) % 64, 0x80 + (c / 64) % 64, 0x80 + c % 64]

/-- UTF-8 encoding of a string (Python `s.encode("utf-8")`). -/
def utf8 (s : String) : List Nat :=
  (s.data.map (fun c => utf8Char c.toNat)).flatten

/-- Whether every code point of the string is ASCII (below 128). -/
def allAscii (s : String) : Bool :=
  s.data.all (fun c => c.toNat < 128)

/-- Python error values surfaced by the embedded code. -/
inductive PyErr where
  | exception (msg : String)
  | typeError (msg : String)
  | unicodeEncodeError (msg : String)
deriving DecidableEq, Repr

instance {ε α : Type} [DecidableEq ε] [DecidableEq α] :
    DecidableEq (Except ε α) := fun x y =>
  match x, y with
  | .ok a, .ok b =>
      if h : a = b then isTrue (by rw [h])
      else isFalse (by intro hc; cases hc; exact h rfl)
  | .error a, .error b =>
      if h : a = b then isTrue (by rw [h])
      else isFalse (by intro hc; cases hc; exact h rfl)
  | .ok _, .error _ => isFalse (by intro hc; cases hc)
  | .error _, .ok _ => isFalse (by intro hc; cases hc)

/-- Python `bytes(s, "ascii")`: succeeds on all-ASCII strings, raises
`UnicodeEncodeError` otherwise (no fallback transcoding). -/
def asciiEncode (s : String) : Except PyErr (List Nat) :=
  if allAscii s then .ok (s.data.map Char.toNat)
  else .error (.unicodeEncodeError "ascii codec cannot encode character")

/-! ## Percent-encoding (`urllib.parse.quote` / `quote_plus` / `urlencode`) -/

/-- CPython's `_ALWAYS_SAFE` byte set: ASCII letters, digits, and
`_` `.` `-` `~`.  These bytes are never percent-escaped by `quote`. -/
def ALWAYS_SAFE (b : Nat) : Bool :=
  (65 ≤ b && b ≤ 90) || (97 ≤ b && b ≤ 122) || (48 ≤ b && b ≤ 57) ||
    b == 95 || b == 46 || b == 45 || b == 126

/-- Uppercase hexadecimal digit, as in CPython's `%{:02X}` escapes. -/
def hexDigit (n : Nat) : Char :=
  if n < 10 then Char.ofNat (48 + n) else Char.ofNat (55 + n)

/-- The `%XX` escape of one byte. -/
def percentByte (b : Nat) : List Char :=
  ['%', hexDigit (b / 16), hexDigit (b % 16)]

/-- `urllib.parse.quote` on one byte, given the extra safe bytes passed via
the `safe` argument (the always-safe set is never escaped regardless). -/
def quoteByte (extraSafe : List Nat) (b : Nat) : List Char :=
  if ALWAYS_SAFE b || extraSafe.contains b then [Char.ofNat b] else percentByte b

/-- `urllib.parse.quote(s, safe=...)`: UTF-8 encode, then escape each byte
that is not safe. -/
def pyQuote (extraSafe : List Nat) (s : String) : String :=
  String.mk (((utf8 s).map (quoteByte extraSafe)).flatten)

/-- `requests.utils.quote(x, safe="~")` as used in `generate_signature`
(`requests.utils.quote` is `urllib.parse.quote`). -/
def quoteTilde (s : String) : String :=
  pyQuote [126] s

/-- `urllib.parse.quote_plus` with `safe=""` on one byte: a space becomes
`+`, every other byte is escaped exactly as by `quote` with no extra safe
characters. -/
def quotePlusByte (b : Nat) : List Char :=
  if b == 32 then ['+']
  else if ALWAYS_SAFE b then [Char.ofNat b] else percentByte b

/-- `urllib.parse.quote_plus(s, safe="")`, the default `quote_via` used by
`urllib.parse.urlencode` for every key and value. -/
def quotePlus (s : String) : String :=
  String.mk (((utf8 s).map quotePlusByte).flatten)

/-- `urllib.parse.urlencode` over an association list, in the list's order
(the source passes a `collections.OrderedDict`, whose iteration order is the
list order here). -/
def urlencode (l : List (String × String)) : String :=
  String.intercalate "&" (l.map (fun kv => quotePlus kv.1 ++ "=" ++ quotePlus kv.2))

/-! ## Python `sorted(params.items())` -/

/-- Python string comparison `a < b`: lexicographic on Unicode code points. -/
def strLtB : List Char → List Char → Bool
  | _, [] => false
  | [], _ :: _ => true
  | a :: as, b :: bs =>
      if a.toNat < b.toNat then true
      else if b.toNat < a.toNat then false
      else strLtB as bs

theorem char_eq_of_toNat_eq {a b : Char} (h : a.toNat = b.toNat) : a = b :=
  Char.ext (UInt32.toNat.inj h)

theorem strLtB_trichotomy (a b : List Char) :
    strLtB a b = true ∨ a = b ∨ strLtB b a = true := by
  induction a generalizing b with
  | nil => cases b with
    | nil => exact Or.inr (Or.inl rfl)
    | cons c cs => exact Or.inl rfl
  | cons x xs ih =>
    cases b with
    | nil => exact Or.inr (Or.inr rfl)
    | cons y ys =>
      rcases Nat.lt_trichotomy x.toNat y.toNat with h | h | h
      · left; simp [strLtB, h]
      · have hxy : x = y := char_eq_of_toNat_eq h
        subst hxy
        rcases ih ys with h2 | h2 | h2
        · left; simp [strLtB, h2]
        · exact Or.inr (Or.inl (by rw [h2]))
        · right; right; simp [strLtB, h2]
      · right; right; simp [strLtB, h]

theorem strLtB_asymm (a b : List Char) (hab : strLtB a b = true)
    (hba : strLtB b a = true) : False := by
  induction a generalizing b with
  | nil => cases b with
    | nil => simp [strLtB] at hab
    | cons c cs => simp [strLtB] at hba
  | cons x xs ih =>
    cases b with
    | nil => simp [strLtB] at hab
    | cons y ys =>
      rcases Nat.lt_trichotomy x.toNat y.toNat with h | h | h
      · simp [strLtB, h, Nat.lt_asymm h] at hba
      · simp [strLtB, h] at hab hba
        exact ih ys hab hba
      · simp [strLtB, h, Nat.lt_asymm h] at hab

theorem strLtB_irrefl (a : List Char) : strLtB a a = false := by
  cases h : strLtB a a with
  | false => rfl
  | true => exact (strLtB_asymm a a h h).elim

theorem strLtB_trans (a b c : List Char) (hab : strLtB a b = true)
    (hbc : strLtB b c = true) : strLtB a c = true := by
  induction a generalizing b c with
  | nil => cases c with
    | nil => cases b with
      | nil => simp [strLtB] at hab
      | cons y ys => simp [strLtB] at hbc
    | cons z zs => simp [strLtB]
  | cons x xs ih =>
    cases b with
    | nil => simp [strLtB] at hab
    | cons y ys =>
      cases c with
      | nil => simp [strLtB] at hbc
      | cons z zs =>
        rcases Nat.lt_trichotomy x.toNat y.toNat with h1 | h1 | h1
        · rcases Nat.lt_trichotomy y.toNat z.toNat with h2 | h2 | h2
          · simp [strLtB, Nat.lt_trans h1 h2]
          · simp [strLtB, h2 ▸ h1]
          · simp [strLtB, h2, Nat.lt_asymm h2] at hbc
        · rcases Nat.lt_trichotomy y.toNat z.toNat with h2 | h2 | h2
          · simp [strLtB, h1 ▸ h2]
          · have hxz : x.toNat = z.toNat := h1.trans h2
            simp [strLtB, h1, Nat.lt_irrefl, h2, hxz] at hab hbc ⊢
            exact ih ys zs hab hbc
          · simp [strLtB, h2, Nat.lt_asymm h2] at hbc
        · simp [strLtB, h1, Nat.lt_asymm h1] at hab

/-- Python tuple comparison on `(key, value)` string pairs: lexicographic,
key first, as a non-strict order.  Python's `sorted` orders by the strict
part of this relation; since the relation is a linear order, the sorted
output is determined by the multiset of pairs, so any correct sort models
it. -/
def pairLe (a b : String × String) : Prop :=
  strLtB a.1.data b.1.data = true ∨
    (a.1 = b.1 ∧ strLtB b.2.data a.2.data = false)

instance (a b : String × String) : Decidable (pairLe a b) := by
  unfold pairLe; infer_instance

theorem string_eq_of_data_eq {a b : String} (h : a.data = b.data) : a = b := by
  cases a; cases b; exact congrArg String.mk h

theorem strLtB_lt_or_eq {a b : List Char} (h : strLtB b a = false) :
    strLtB a b = true ∨ a = b := by
  rcases strLtB_trichotomy a b with h2 | h2 | h2
  · exact Or.inl h2
  · exact Or.inr h2
  · rw [h2] at h; cases h

theorem strLtB_not_lt {a b : List Char} (h : strLtB a b = true) :
    strLtB b a = false := by
  cases h2 : strLtB b a with
  | false => rfl
  | true => exact (strLtB_asymm a b h h2).elim

instance : IsTotal (String × String) pairLe where
  total a b := by
    rcases strLtB_trichotomy a.1.data b.1.data with h | h | h
    · exact Or.inl (Or.inl h)
    · have hk : a.1 = b.1 := string_eq_of_data_eq h
      cases hv : strLtB b.2.data a.2.data with
      | false => exact Or.inl (Or.inr ⟨hk, hv⟩)
      | true => exact Or.inr (Or.inr ⟨hk.symm, strLtB_not_lt hv⟩)
    · exact Or.inr (Or.inl h)

instance : IsTrans (String × String) pairLe where
  trans a b c hab hbc := by
    rcases hab with h1 | ⟨h1, h1v⟩
    · rcases hbc with h2 | ⟨h2, _⟩
      · exact Or.inl (strLtB_trans _ _ _ h1 h2)
      · exact Or.inl (h2 ▸ h1)
    · rcases hbc with h2 | ⟨h2, h2v⟩
      · exact Or.inl (h1 ▸ h2)
      · refine Or.inr ⟨h1.trans h2, ?_⟩
        rcases strLtB_lt_or_eq h1v with h4 | h4
        · rcases strLtB_lt_or_eq h2v with h5 | h5
          · exact strLtB_not_lt (strLtB_trans _ _ _ h4 h5)
          · rw [← h5]; exact strLtB_not_lt h4
        · rcases strLtB_lt_or_eq h2v with h5 | h5
          · rw [h4]; exact strLtB_not_lt h5
          · rw [← h5, ← h4]; exact strLtB_irrefl _

instance : IsAntisymm (String × String) pairLe where
  antisymm a b hab hba := by
    rcases hab with h1 | ⟨h1, h1v⟩
    · rcases hba with h2 | ⟨h2, _⟩
      · exact (strLtB_asymm _ _ h1 h2).elim
      · rw [h2] at h1
        rw [strLtB_irrefl] at h1
        cases h1
    · rcases hba with h2 | ⟨_, h2v⟩
      · rw [h1] at h2
        rw [strLtB_irrefl] at h2
        cases h2
      · have hv : a.2 = b.2 := by
          rcases strLtB_lt_or_eq h1v with h3 | h3
          · rw [h3] at h2v; cases h2v
          · exact string_eq_of_data_eq h3
        exact Prod.ext h1 hv

/-- `sorted(params.items())`: the unique `pairLe`-sorted arrangement of the
pairs, realised by insertion sort. -/
def pySorted (l : List (String × String)) : List (String × String) :=
  l.insertionSort pairLe

/-! ## SHA-1 (`hashlib.sha1`) -/

/-- Truncation to a 32-bit word. -/
def w32 (x : Nat) : Nat := x % 4294967296

/-- Left rotation of a 32-bit word by `n` bits. -/
def rotl (n x : Nat) : Nat :=
  w32 ((x <<< n) ||| (x >>> (32 - n)))

/-- Big-endian 8-byte encoding of the bit length in SHA-1 padding. -/
def be64 (n : Nat) : List Nat :=
  [(n >>> 56) % 256, (n >>> 48) % 256, (n >>> 40) % 256, (n >>> 32) % 256,
   (n >>> 24) % 256, (n >>> 16) % 256, (n >>> 8) % 256, n % 256]

/-- SHA-1 / MD-style padding: append `0x80`, zero bytes up to 56 mod 64,
then the message bit length as 8 big-endian bytes. -/
def sha1Pad (msg : List Nat) : List Nat :=
  msg ++ [128] ++ List.replicate ((119 - msg.length % 64) % 64) 0 ++
    be64 (msg.length * 8)

/-- Split a byte list into 64-byte blocks (fuel recursion; the fuel, the
list length, always suffices). -/
def chunk64 : Nat → List Nat → List (List Nat)
  | 0, _ => []
  | _ + 1, [] => []
  | fuel + 1, l => l.take 64 :: chunk64 fuel (l.drop 64)

/-- The `i`-th big-endian 32-bit word of a 64-byte block. -/
def blockWord (block : List Nat) (i : Nat) : Nat :=
  (block.getD (4 * i) 0) * 16777216 + (block.getD (4 * i + 1) 0) * 65536 +
    (block.getD (4 * i + 2) 0) * 256 + block.getD (4 * i + 3) 0

/-- The 80-word SHA-1 message schedule of one block. -/
def sha1Schedule (block : List Nat) : List Nat :=
  (List.range 64).foldl
    (fun ws i =>
      ws ++ [rotl 1 (ws.getD (i + 13) 0 ^^^ ws.getD (i + 8) 0 ^^^
        ws.getD (i + 2) 0 ^^^ ws.getD i 0)])
    ((List.range 16).map (blockWord block))

/-- The SHA-1 round function `f_t`. -/
def sha1F (t b c d : Nat) : Nat :=
  if t < 20 then (b &&& c) ||| ((b ^^^ 4294967295) &&& d)
  else if t < 40 then b ^^^ c ^^^ d
  else if t < 60 then (b &&& c) ||| (b &&& d) ||| (c &&& d)
  else b ^^^ c ^^^ d

/-- The SHA-1 round constant `K_t`. -/
def sha1K (t : Nat) : Nat :=
  if t < 20 then 0x5A827999
  else if t < 40 then 0x6ED9EBA1
  else if t < 60 then 0x8F1BBCDC
  else 0xCA62C1D6

/-- One SHA-1 compression step over a block. -/
def sha1Compress (h : Nat × Nat × Nat × Nat × Nat) (block : List Nat) :
    Nat × Nat × Nat × Nat × Nat :=
  let ws := sha1Schedule block
  let final := (List.range 80).foldl
    (fun st t =>
      let a := st.1
      let b := st.2.1
      let c := st.2.2.1
      let d := st.2.2.2.1
      let e := st.2.2.2.2
      let temp := w32 (rotl 5 a + sha1F t b c d + e + sha1K t + ws.getD t 0)
      (temp, a, rotl 30 b, c, d))
    h
  (w32 (h.1 + final.1), w32 (h.2.1 + final.2.1), w32 (h.2.2.1 + final.2.2.1),
   w32 (h.2.2.2.1 + final.2.2.2.1), w32 (h.2.2.2.2 + final.2.2.2.2))

/-- Big-endian 4-byte encoding of a 32-bit word. -/
def wordBytes (w : Nat) : List Nat :=
  [(w >>> 24) % 256, (w >>> 16) % 256, (w >>> 8) % 256, w % 256]

/-- SHA-1 digest (20 bytes) of a byte list. -/
def sha1 (msg : List Nat) : List Nat :=
  let padded := sha1Pad msg
  let final := (chunk64 padded.length padded).foldl sha1Compress
    (0x67452301, 0xEFCDAB89, 0x98BADCFE, 0x10325476, 0xC3D2E1F0)
  wordBytes final.1 ++ wordBytes final.2.1 ++ wordBytes final.2.2.1 ++
    wordBytes final.2.2.2.1 ++ wordBytes final.2.2.2.2

/-- `hmac.new(key, msg, hashlib.sha1).digest()`. -/
def hmacSha1 (key msg : List Nat) : List Nat :=
  let k := if 64 < key.length then sha1 key else key
  let k0 := k ++ List.replicate (64 - k.length) 0
  sha1 ((k0.map (fun b => b ^^^ 0x5C)) ++
    sha1 ((k0.map (fun b => b ^^^ 0x36)) ++ msg))

/-! ## Base64 (`base64.b64encode`) -/

/-- Standard base64 alphabet, as the ASCII byte of the character for a
6-bit value. -/
def b64Char (n : Nat) : Nat :=
  if n < 26 then 65 + n
  else if n < 52 then 97 + (n - 26)
  else if n < 62 then 48 + (n - 52)
  else if n == 62 then 43 else 47

/-- `base64.b64encode`: 3 input bytes to 4 output bytes, `=`-padded. -/
def b64encode : List Nat → List Nat
  | [] => []
  | [a] => [b64Char (a / 4), b64Char (a % 4 * 16), 61, 61]
  | [a, b] => [b64Char (a / 4), b64Char (a % 4 * 16 + b / 16),
      b64Char (b % 16 * 4), 61]
  | a :: b :: c :: rest =>
      b64Char (a / 4) :: b64Char (a % 4 * 16 + b / 16) ::
        b64Char (b % 16 * 4 + c / 64) :: b64Char (c % 64) :: b64encode rest

/-! ## `Gallery.generate_signature` -/

/-- `str.upper` on one character; agrees with Python on ASCII (the source
only uppercases "GET"/"POST"). -/
def pyUpperChar (c : Char) : Char :=
  if 97 ≤ c.toNat && c.toNat ≤ 122 then Char.ofNat (c.toNat - 32) else c

/-- `http_method.upper()`. -/
def pyUpper (s : String) : String :=
  String.mk (s.data.map pyUpperChar)

/-- The `base_string` built by `generate_signature`: sort the parameters,
`urlencode` them into `normalized_params`, percent-encode URL and parameter
string with `safe="~"`, and join `METHOD & url & params` with literal
`&`. -/
def signingBaseString (http_method url : String)
    (params : List (String × String)) : String :=
  String.intercalate "&"
    [pyUpper http_method, quoteTilde url, quoteTilde (urlencode (pySorted params))]

/-- `Gallery.generate_signature(self, http_method, url, params)`:
ASCII-encode the signing key `"&".join([api_secret, ""])` and the base
string, and return the base64 of the HMAC-SHA1 digest. -/
def generate_signature (api_secret http_method url : String)
    (params : List (String × String)) : Except PyErr (List Nat) := do
  let secret_bytes ← asciiEncode (String.intercalate "&" [api_secret, ""])
  let base_bytes ← asciiEncode (signingBaseString http_method url params)
  pure (b64encode (hmacSha1 secret_bytes base_bytes))

/-! ## Python values, credential validation (`Gallery.__init__` and the
property setters) -/

/-- Python values as far as the client observes them: strings, integers,
booleans, `None`, lists, dicts, and `bytes`.  `generate_signature` returns
a `bytes` value (the unmodified output of `base64.b64encode`), which is
stored as such under `"oauth_signature"`. -/
inductive PyVal where
  | str (s : String)
  | int (n : Int)
  | bool (b : Bool)
  | pynone
  | list (l : List PyVal)
  | dict (l : List (String × PyVal))
  | bytes (bs : List Nat)

/-- Python truthiness (`bool(v)`), used by the `if not value:` checks in the
setters. -/
def pyFalsy : PyVal → Bool
  | .str s => s == ""
  | .int n => n == 0
  | .bool b => !b
  | .pynone => true
  | .list l => l.isEmpty
  | .dict l => l.isEmpty
  | .bytes bs => bs.isEmpty

/-- The `api_location` property setter: rejects falsy values with
`Exception`, non-string values with `TypeError`, stores the string. -/
def set_api_location (loc : PyVal) : Except PyErr String :=
  if pyFalsy loc then .error (.exception "api_location cannot be empty")
  else match loc with
    | .str s => .ok s
    | _ => .error (.typeError "Invalid type for variable api_location")

/-- The `api_key` property setter. -/
def set_api_key (key : PyVal) : Except PyErr String :=
  if pyFalsy key then .error (.exception "api_key cannot be empty")
  else match key with
    | .str s => .ok s
    | _ => .error (.typeError "Invalid type for variable api_key")

/-- The `api_secret` property setter. -/
def set_api_secret (secret_key : PyVal) : Except PyErr String :=
  if pyFalsy secret_key then .error (.exception "api_secret cannot be empty")
  else match secret_key with
    | .str s => .ok s
    | _ => .error (.typeError "Invalid type for variable api_secret")

/-- The validated credential state of a `Gallery` instance. -/
structure Gallery where
  api_location : String
  api_key : String
  api_secret : String
deriving DecidableEq, Repr

/-- `Gallery.__init__`: runs the three setters in order; any failure
propagates before anything else happens (the constructor performs no
network activity). -/
def Gallery.init (loc key secret : PyVal) : Except PyErr Gallery := do
  let l ← set_api_location loc
  let k ← set_api_key key
  let s ← set_api_secret secret
  pure ⟨l, k, s⟩

/-- Assignment `g.api_location = v` on an existing instance: the setter
validates `v`; on success the stored field is replaced, on failure the
exception propagates (the instance is left as it was). -/
def Gallery.assign_api_location (g : Gallery) (v : PyVal) :
    Except PyErr Gallery :=
  (set_api_location v).map (fun l => { g with api_location := l })

/-- Assignment `g.api_key = v` on an existing instance. -/
def Gallery.assign_api_key (g : Gallery) (v : PyVal) : Except PyErr Gallery :=
  (set_api_key v).map (fun k => { g with api_key := k })

/-- Assignment `g.api_secret = v` on an existing instance. -/
def Gallery.assign_api_secret (g : Gallery) (v : PyVal) :
    Except PyErr Gallery :=
  (set_api_secret v).map (fun s => { g with api_secret := s })

/-! ## Nonce and OAuth parameters -/

/-- `string.ascii_uppercase + string.digits + string.ascii_lowercase`, the
local `tmp_string` of `generate_nonce`, in the source's concatenation
order. -/
def tmp_string : List Char :=
  "ABCDEFGHIJKLMNOPQRSTUVWXYZ0123456789abcdefghijklmnopqrstuvwxyz".data

/-- `Gallery.generate_nonce(length=5)`.  `random.choice(tmp_string)` picks a
uniformly random index into the 62-character alphabet; the ambient random
source is modelled as the stream `choice` of indices (one per loop
iteration).  `str` applied to the chosen 1-character string is the identity
and is dropped. -/
def generate_nonce (choice : Nat → Fin 62) (length : Nat := 5) : String :=
  String.mk ((List.range length).map (fun i => tmp_string.getD (choice i).val 'A'))

/-- The ambient effects a request build consumes: the random stream feeding
`random.choice` and the current time `time.time()` in whole seconds
(`int(math.floor(time.time()))`). -/
structure Env where
  choice : Nat → Fin 62
  now : Nat

/-- `Gallery.build_oauth_params`: the five pre-signature OAuth parameters,
in the source's insertion order. -/
def build_oauth_params (g : Gallery) (env : Env) : List (String × String) :=
  [("oauth_consumer_key", g.api_key),
   ("oauth_nonce", generate_nonce env.choice 5),
   ("oauth_signature_method", "HMAC-SHA1"),
   ("oauth_timestamp", toString env.now),
   ("oauth_version", "1.0")]

/-! ## Endpoint operations -/

/-- `dict.update({k: v})` on a dict in insertion order: replaces the value
of an existing key in place, appends a new key at the end. -/
def dictUpdate (d : List (String × PyVal)) (k : String) (v : PyVal) :
    List (String × PyVal) :=
  if d.any (fun kv => kv.1 == k) then
    d.map (fun kv => if kv.1 == k then (k, v) else kv)
  else d ++ [(k, v)]

/-- The HTTP request an operation hands to `requests.get`/`requests.post`:
the URL, the query parameters (`params=`), the extra headers, and the JSON
body (`json=`), if any. -/
structure HttpRequest where
  method : String
  url : String
  params : List (String × PyVal)
  headers : List (String × String)
  jsonBody : Option PyVal

/-- How an operation decodes the response body: every endpoint decodes
`output.content` as UTF-8, and all but `get_job_output` then apply
`json.loads`. -/
inductive BodyDecode where
  | jsonUtf8
  | rawUtf8
deriving DecidableEq, Repr

/-- The shared request-building epilogue of every endpoint: build fresh
OAuth params, sign, attach the signature (a `bytes` value) under
`"oauth_signature"`, and issue the call. -/
def signedRequest (g : Gallery) (env : Env) (method url : String)
    (headers : List (String × String)) (jsonBody : Option PyVal) :
    Except PyErr HttpRequest := do
  let signature ← generate_signature g.api_secret method url
    (build_oauth_params g env)
  pure ⟨method, url,
    dictUpdate ((build_oauth_params g env).map (fun kv => (kv.1, PyVal.str kv.2)))
      "oauth_signature" (.bytes signature),
    headers, jsonBody⟩

/-- `Gallery.subscription`. -/
def subscription (g : Gallery) (env : Env) :
    Except PyErr (HttpRequest × BodyDecode) := do
  let req ← signedRequest g env "GET" (g.api_location ++ "/v1/workflows/subscription/") [] none
  pure (req, .jsonUtf8)

/-- `Gallery.questions(app_id)`. -/
def questions (g : Gallery) (env : Env) (app_id : String) :
    Except PyErr (HttpRequest × BodyDecode) := do
  let req ← signedRequest g env "GET"
    (g.api_location ++ "/v1/workflows/" ++ app_id ++ "/questions/") [] none
  pure (req, .jsonUtf8)

/-- `Gallery.execute_workflow(app_id, **kwargs)`: a POST; when a `payload`
keyword is supplied the call passes it as the JSON body together with a
`Content-Type: application/json` header, otherwise neither is sent. -/
def execute_workflow (g : Gallery) (env : Env) (app_id : String)
    (payload : Option PyVal) : Except PyErr (HttpRequest × BodyDecode) := do
  let url := g.api_location ++ "/v1/workflows/" ++ app_id ++ "/jobs/"
  match payload with
  | some p =>
      let req ← signedRequest g env "POST" url
        [("Content-Type", "application/json")] (some p)
      pure (req, .jsonUtf8)
  | none =>
      let req ← signedRequest g env "POST" url [] none
      pure (req, .jsonUtf8)

/-- `Gallery.get_jobs(app_id)`. -/
def get_jobs (g : Gallery) (env : Env) (app_id : String) :
    Except PyErr (HttpRequest × BodyDecode) := do
  let req ← signedRequest g env "GET"
    (g.api_location ++ "/v1/workflows/" ++ app_id ++ "/jobs/") [] none
  pure (req, .jsonUtf8)

/-- `Gallery.get_job_status(job_id)`. -/
def get_job_status (g : Gallery) (env : Env) (job_id : String) :
    Except PyErr (HttpRequest × BodyDecode) := do
  let req ← signedRequest g env "GET"
    (g.api_location ++ "/v1/jobs/" ++ job_id ++ "/") [] none
  pure (req, .jsonUtf8)

/-- `Gallery.get_job_output(job_id, output_id)`: the one endpoint whose
response body is returned as decoded UTF-8 text, never JSON-parsed. -/
def get_job_output (g : Gallery) (env : Env) (job_id output_id : String) :
    Except PyErr (HttpRequest × BodyDecode) := do
  let req ← signedRequest g env "GET"
    (g.api_location ++ "/v1/jobs/" ++ job_id ++ "/output/" ++ output_id ++ "/") [] none
  pure (req, .rawUtf8)

/-- `Gallery.get_workflows`. -/
def get_workflows (g : Gallery) (env : Env) :
    Except PyErr (HttpRequest × BodyDecode) := do
  let req ← signedRequest g env "GET" (g.api_location ++ "/admin/v1/workflows/") [] none
  pure (req, .jsonUtf8)

/-- `Gallery.get_app(app_id)`. -/
def get_app (g : Gallery) (env : Env) (app_id : String) :
    Except PyErr (HttpRequest × BodyDecode) := do
  let req ← signedRequest g env "GET"
    (g.api_location ++ "/v1/workflows/" ++ app_id ++ "/package/") [] none
  pure (req, .jsonUtf8)

/-! ## Supporting lemmas -/

/-- Sorting is determined by the multiset of pairs: `pairLe` is a total,
transitive, antisymmetric relation, so two permutations of the same pairs
have the same sorted arrangement. -/
theorem pySorted_eq_of_perm {l₁ l₂ : List (String × String)} (h : l₁.Perm l₂) :
    pySorted l₁ = pySorted l₂ :=
  List.eq_of_perm_of_sorted
    ((List.perm_insertionSort pairLe l₁).trans
      (h.trans (List.perm_insertionSort pairLe l₂).symm))
    (List.sorted_insertionSort pairLe l₁)
    (List.sorted_insertionSort pairLe l₂)

theorem char_toNat_lt (c : Char) : c.toNat < 1114112 := by
  rcases c.valid with h | h
  · exact Nat.lt_trans h (by norm_num)
  · exact h.2

theorem char_toNat_ofNat {b : Nat} (h : b < 128) : (Char.ofNat b).toNat = b := by
  unfold Char.ofNat
  rw [dif_pos (Or.inl (by omega))]
  rfl

theorem utf8Char_lt {c : Char} {b : Nat} (hb : b ∈ utf8Char c.toNat) :
    b < 256 := by
  have hc := char_toNat_lt c
  unfold utf8Char at hb
  split_ifs at hb with h1 h2 h3 <;>
    simp only [List.mem_cons, List.mem_singleton, List.not_mem_nil,
      or_false] at hb <;>
    omega

theorem utf8_lt {s : String} {b : Nat} (hb : b ∈ utf8 s) : b < 256 := by
  unfold utf8 at hb
  rw [List.mem_flatten] at hb
  obtain ⟨piece, hpiece, hbp⟩ := hb
  rw [List.mem_map] at hpiece
  obtain ⟨c, _, rfl⟩ := hpiece
  exact utf8Char_lt hbp

theorem ALWAYS_SAFE_lt {b : Nat} (h : ALWAYS_SAFE b = true) : b < 128 := by
  simp only [ALWAYS_SAFE, Bool.or_eq_true, Bool.and_eq_true,
    decide_eq_true_eq, beq_iff_eq] at h
  omega

theorem hexDigit_ascii {n : Nat} (h : n < 16) : (hexDigit n).toNat < 128 := by
  unfold hexDigit
  split_ifs with h1
  · rw [char_toNat_ofNat (by omega)]; omega
  · rw [char_toNat_ofNat (by omega)]; omega

theorem quoteByte_ascii {b : Nat} (hb : b < 256) {ch : Char}
    (hch : ch ∈ quoteByte [126] b) : ch.toNat < 128 := by
  unfold quoteByte at hch
  split_ifs at hch with h
  · rw [List.mem_singleton] at hch
    subst hch
    rcases Bool.or_eq_true _ _ |>.mp h with h2 | h2
    · rw [char_toNat_ofNat (ALWAYS_SAFE_lt h2)]; exact ALWAYS_SAFE_lt h2
    · have : b = 126 := by simpa using h2
      subst this
      rw [char_toNat_ofNat (by omega)]; omega
  · unfold percentByte at hch
    simp only [List.mem_cons, List.mem_singleton, List.not_mem_nil,
      or_false] at hch
    rcases hch with rfl | rfl | rfl
    · decide
    · exact hexDigit_ascii (by omega)
    · exact hexDigit_ascii (by omega)

theorem allAscii_mk (l : List Char) :
    allAscii (String.mk l) = l.all (fun c => c.toNat < 128) := rfl

theorem allAscii_quoteTilde (s : String) : allAscii (quoteTilde s) = true := by
  unfold quoteTilde pyQuote
  rw [allAscii_mk, List.all_eq_true]
  intro ch hch
  rw [List.mem_flatten] at hch
  obtain ⟨piece, hpiece, hchp⟩ := hch
  rw [List.mem_map] at hpiece
  obtain ⟨b, hb, rfl⟩ := hpiece
  exact decide_eq_true (quoteByte_ascii (utf8_lt hb) hchp)

theorem allAscii_append (a b : String) :
    allAscii (a ++ b) = (allAscii a && allAscii b) := by
  simp [allAscii, String.data_append, List.all_append]

theorem intercalate3 (a b c : String) :
    String.intercalate "&" [a, b, c] = a ++ "&" ++ b ++ "&" ++ c := rfl

/-- The ASCII step of `generate_signature` succeeds or fails exactly on the
ASCII-ness of `api_secret` (given an ASCII method): URL and parameter
string are percent-encoded to pure ASCII first, so only the signing key
(and the verbatim method) can carry non-ASCII code points into the
`bytes(..., "ascii")` calls. -/
theorem allAscii_signingBaseString (http_method url : String)
    (params : List (String × String)) (hm : allAscii (pyUpper http_method) = true) :
    allAscii (signingBaseString http_method url params) = true := by
  unfold signingBaseString
  rw [intercalate3, allAscii_append, allAscii_append, allAscii_append,
    allAscii_append, hm, allAscii_quoteTilde, allAscii_quoteTilde]
  decide

theorem generate_signature_cases (api_secret http_method url : String)
    (params : List (String × String)) (hm : allAscii (pyUpper http_method) = true) :
    (allAscii api_secret = true →
      generate_signature api_secret http_method url params =
        .ok (b64encode (hmacSha1 ((api_secret ++ "&").data.map Char.toNat)
          ((signingBaseString http_method url params).data.map Char.toNat)))) ∧
    (allAscii api_secret = false →
      generate_signature api_secret http_method url params =
        .error (.unicodeEncodeError "ascii codec cannot encode character")) := by
  have hsec : String.intercalate "&" [api_secret, ""] = api_secret ++ "&" := by
    show api_secret ++ "&" ++ "" = api_secret ++ "&"
    rw [String.append_empty]
  have hbase := allAscii_signingBaseString http_method url params hm
  constructor
  · intro hs
    have hsec2 : allAscii (api_secret ++ "&") = true := by
      rw [allAscii_append, hs]; decide
    unfold generate_signature asciiEncode
    rw [hsec, hsec2, hbase]
    rfl
  · intro hs
    have hsec2 : allAscii (api_secret ++ "&") = false := by
      rw [allAscii_append, hs]; decide
    unfold generate_signature asciiEncode
    rw [hsec, hsec2]
    rfl

theorem except_bind_ok {α β : Type} (x : α) (f : α → Except PyErr β) :
    (Bind.bind (Except.ok x) f : Except PyErr β) = f x := rfl

theorem except_bind_err {α β : Type} (e : PyErr) (f : α → Except PyErr β) :
    (Bind.bind (Except.error e) f : Except PyErr β) = .error e := rfl

/-- A credential value the setters accept: a non-empty string. -/
def validCred (v : PyVal) : Prop :=
  ∃ s, v = .str s ∧ s ≠ ""

theorem set_api_location_ok (s : String) (hs : s ≠ "") :
    set_api_location (.str s) = .ok s := by
  unfold set_api_location
  have h : pyFalsy (.str s) = false := by simp [pyFalsy, hs]
  rw [h]
  rfl

theorem set_api_location_err (v : PyVal) (hv : ¬validCred v) :
    ∃ e, set_api_location v = .error e := by
  unfold set_api_location
  cases h : pyFalsy v with
  | true => exact ⟨_, rfl⟩
  | false =>
    cases v with
    | str s => exact absurd ⟨s, rfl, by simpa [pyFalsy] using h⟩ hv
    | int n => exact ⟨_, rfl⟩
    | bool b => exact ⟨_, rfl⟩
    | pynone => exact ⟨_, rfl⟩
    | list l => exact ⟨_, rfl⟩
    | dict l => exact ⟨_, rfl⟩
    | bytes bs => exact ⟨_, rfl⟩

theorem set_api_key_ok (s : String) (hs : s ≠ "") :
    set_api_key (.str s) = .ok s := by
  unfold set_api_key
  have h : pyFalsy (.str s) = false := by simp [pyFalsy, hs]
  rw [h]
  rfl

theorem set_api_key_err (v : PyVal) (hv : ¬validCred v) :
    ∃ e, set_api_key v = .error e := by
  unfold set_api_key
  cases h : pyFalsy v with
  | true => exact ⟨_, rfl⟩
  | false =>
    cases v with
    | str s => exact absurd ⟨s, rfl, by simpa [pyFalsy] using h⟩ hv
    | int n => exact ⟨_, rfl⟩
    | bool b => exact ⟨_, rfl⟩
    | pynone => exact ⟨_, rfl⟩
    | list l => exact ⟨_, rfl⟩
    | dict l => exact ⟨_, rfl⟩
    | bytes bs => exact ⟨_, rfl⟩

theorem set_api_secret_ok (s : String) (hs : s ≠ "") :
    set_api_secret (.str s) = .ok s := by
  unfold set_api_secret
  have h : pyFalsy (.str s) = false := by simp [pyFalsy, hs]
  rw [h]
  rfl

theorem set_api_secret_err (v : PyVal) (hv : ¬validCred v) :
    ∃ e, set_api_secret v = .error e := by
  unfold set_api_secret
  cases h : pyFalsy v with
  | true => exact ⟨_, rfl⟩
  | false =>
    cases v with
    | str s => exact absurd ⟨s, rfl, by simpa [pyFalsy] using h⟩ hv
    | int n => exact ⟨_, rfl⟩
    | bool b => exact ⟨_, rfl⟩
    | pynone => exact ⟨_, rfl⟩
    | list l => exact ⟨_, rfl⟩
    | dict l => exact ⟨_, rfl⟩
    | bytes bs => exact ⟨_, rfl⟩

/-- None of the five OAuth parameter keys is `"oauth_signature"`, so
`params.update` appends rather than overwrites. -/
theorem oauth_params_no_sig (g : Gallery) (env : Env) :
    (((build_oauth_params g env).map
      (fun kv => (kv.1, PyVal.str kv.2))).any
        (fun kv => kv.1 == "oauth_signature")) = false := by
  simp only [build_oauth_params, List.map_cons, List.map_nil, List.any_cons,
    List.any_nil]
  decide

theorem dictUpdate_oauth (g : Gallery) (env : Env) (v : PyVal) :
    dictUpdate ((build_oauth_params g env).map (fun kv => (kv.1, PyVal.str kv.2)))
        "oauth_signature" v =
      (build_oauth_params g env).map (fun kv => (kv.1, PyVal.str kv.2)) ++
        [("oauth_signature", v)] := by
  unfold dictUpdate
  rw [oauth_params_no_sig]
  simp

/-- The query parameters every endpoint sends: the five OAuth parameters in
their original insertion order (as strings), followed by the appended
signature, stored as a `bytes` value. -/
def signedParams (g : Gallery) (env : Env) (sig : List Nat) :
    List (String × PyVal) :=
  (build_oauth_params g env).map (fun kv => (kv.1, PyVal.str kv.2)) ++
    [("oauth_signature", PyVal.bytes sig)]

theorem signedRequest_ok (g : Gallery) (env : Env) (method url : String)
    (headers : List (String × String)) (jsonBody : Option PyVal)
    (hm : allAscii (pyUpper method) = true)
    (hs : allAscii g.api_secret = true) :
    ∃ sig,
      generate_signature g.api_secret method url (build_oauth_params g env) =
        .ok sig ∧
      signedRequest g env method url headers jsonBody =
        .ok ⟨method, url, signedParams g env sig, headers, jsonBody⟩ := by
  have h := (generate_signature_cases g.api_secret method url
    (build_oauth_params g env) hm).1 hs
  refine ⟨_, h, ?_⟩
  unfold signedRequest
  rw [h, except_bind_ok]
  rw [dictUpdate_oauth]
  rfl

/-! ## Claims -/

set_option maxRecDepth 10000 in
/-- C1: for the fixed inputs `http_method="GET"`,
`url="https://example.com/v1/workflows/subscription/"`, the five OAuth
parameters with consumer key `"k"`, nonce `"abcde"`, timestamp
`"1000000000"`, and `api_secret="s"`, `generate_signature` returns the
base64 encoding of the HMAC-SHA1 digest with key `"s&"` over the base
string `GET & percent-encoded URL & percent-encoded sorted parameter
string`.  The reference value `"DuUr95xl5TO7tP4agwjvGOHEAb8="` was computed
by an independent trusted HMAC-SHA1/OAuth 1.0a implementation. -/
theorem C1_known_vector :
    generate_signature "s" "GET" "https://example.com/v1/workflows/subscription/"
      [("oauth_consumer_key", "k"), ("oauth_nonce", "abcde"),
       ("oauth_signature_method", "HMAC-SHA1"), ("oauth_timestamp", "1000000000"),
       ("oauth_version", "1.0")] =
    .ok (("DuUr95xl5TO7tP4agwjvGOHEAb8=").data.map Char.toNat) := by decide

/-- C2, counterexample: the parameter encoding (`urlencode`, i.e.
`quote_plus`) and the URL encoding (`quote` with `safe="~"`) do NOT agree
on every character: on a space the parameter encoding produces `"+"` while
the URL encoding produces `"%20"`. -/
theorem C2_counterexample :
    urlencode [("a", " ")] = "a=+" ∧ quoteTilde " " = "%20" ∧
      quotePlus " " ≠ quoteTilde " " := by
  refine ⟨by decide, by decide, by decide⟩

theorem utf8Char_ne_32 {c : Char} (hc : c ≠ ' ') :
    ∀ b ∈ utf8Char c.toNat, b ≠ 32 := by
  intro b hb
  unfold utf8Char at hb
  split_ifs at hb with h1 h2 h3 <;>
    simp only [List.mem_cons, List.mem_singleton, List.not_mem_nil,
      or_false] at hb
  · intro h32
    exact hc (char_eq_of_toNat_eq (hb ▸ h32))
  · omega
  · omega
  · omega

theorem quotePlusByte_eq_quoteByte {b : Nat} (hb : b ≠ 32) :
    quotePlusByte b = quoteByte [126] b := by
  unfold quotePlusByte quoteByte
  rw [if_neg (by simpa using hb)]
  by_cases h : ALWAYS_SAFE b = true
  · rw [if_pos h, if_pos (by rw [h]; rfl)]
  · have h' : ALWAYS_SAFE b = false := by simpa using h
    have h126 : b ≠ 126 := fun he => h (by rw [he]; decide)
    have hc : ([126].contains b) = false := by simpa using h126
    simp [h', hc]
    rw [if_neg h126]

/-- C2, amended: the parameter values and keys are encoded by `quote_plus`
(safe set = the RFC3986 unreserved characters), the URL by `quote` with
`safe="~"`; both leave `~` unescaped and the two encodings agree on every
character except space, where the parameter encoding yields `+` and the
URL encoding yields `%20`. -/
theorem C2_amended_encodings :
    (∀ s : String, (∀ c ∈ s.data, c ≠ ' ') → quotePlus s = quoteTilde s) ∧
    quotePlus "~" = "~" ∧ quoteTilde "~" = "~" ∧
    quotePlus " " = "+" ∧ quoteTilde " " = "%20" := by
  refine ⟨?_, by decide, by decide, by decide, by decide⟩
  intro s hs
  unfold quotePlus quoteTilde pyQuote
  have hbytes : ∀ b ∈ utf8 s, b ≠ 32 := by
    intro b hb
    unfold utf8 at hb
    rw [List.mem_flatten] at hb
    obtain ⟨piece, hpiece, hbp⟩ := hb
    rw [List.mem_map] at hpiece
    obtain ⟨c, hc, rfl⟩ := hpiece
    exact utf8Char_ne_32 (hs c hc) b hbp
  have hmap : (utf8 s).map quotePlusByte = (utf8 s).map (quoteByte [126]) :=
    List.map_congr_left (fun b hb => quotePlusByte_eq_quoteByte (hbytes b hb))
  rw [hmap]

/-- C2 amended, witness instance: on the space-free string `"a b"`-less
example `"x~/"` the two encodings agree. -/
theorem C2_amended_encodings_witness :
    quotePlus "x~/" = quoteTilde "x~/" :=
  C2_amended_encodings.1 "x~/" (by decide)

/-- C3, counterexample: credentials are NOT immutable after construction —
assigning a different non-empty string to `api_key` on a constructed
instance is accepted by the setter and changes the stored field. -/
theorem C3_counterexample :
    Gallery.assign_api_key ⟨"loc", "key", "sec"⟩ (.str "key2") =
      .ok ⟨"loc", "key2", "sec"⟩ ∧ "key2" ≠ "key" := by
  refine ⟨rfl, by decide⟩

/-- C3, amended: credential fields are validated on every assignment but
are not immutable: assigning a non-empty string to any of the three fields
on an existing instance succeeds and replaces the stored value (so later
signatures use the currently stored credentials), while an empty or
non-string assignment raises and leaves the instance unchanged. -/
theorem C3_amended_assignment :
    (∀ (g : Gallery) (s : String), s ≠ "" →
      g.assign_api_location (.str s) = .ok { g with api_location := s } ∧
      g.assign_api_key (.str s) = .ok { g with api_key := s } ∧
      g.assign_api_secret (.str s) = .ok { g with api_secret := s }) ∧
    (∀ (g : Gallery) (v : PyVal), ¬validCred v →
      (∃ e, g.assign_api_location v = .error e) ∧
      (∃ e, g.assign_api_key v = .error e) ∧
      (∃ e, g.assign_api_secret v = .error e)) := by
  constructor
  · intro g s hs
    refine ⟨?_, ?_, ?_⟩
    · unfold Gallery.assign_api_location
      rw [set_api_location_ok s hs]
      rfl
    · unfold Gallery.assign_api_key
      rw [set_api_key_ok s hs]
      rfl
    · unfold Gallery.assign_api_secret
      rw [set_api_secret_ok s hs]
      rfl
  · intro g v hv
    obtain ⟨e₁, he₁⟩ := set_api_location_err v hv
    obtain ⟨e₂, he₂⟩ := set_api_key_err v hv
    obtain ⟨e₃, he₃⟩ := set_api_secret_err v hv
    refine ⟨⟨e₁, ?_⟩, ⟨e₂, ?_⟩, ⟨e₃, ?_⟩⟩
    · unfold Gallery.assign_api_location; rw [he₁]; rfl
    · unfold Gallery.assign_api_key; rw [he₂]; rfl
    · unfold Gallery.assign_api_secret; rw [he₃]; rfl

theorem C3_amended_assignment_witness :
    (Gallery.assign_api_secret ⟨"a", "b", "c"⟩ (.str "d") =
      .ok ⟨"a", "b", "d"⟩) ∧
    (∃ e, Gallery.assign_api_secret ⟨"a", "b", "c"⟩ (.int 0) = .error e) :=
  ⟨(C3_amended_assignment.1 ⟨"a", "b", "c"⟩ "d" (by decide)).2.2,
   (C3_amended_assignment.2 ⟨"a", "b", "c"⟩ (.int 0)
     (by intro hv; obtain ⟨s, h, -⟩ := hv; cases h)).2.2⟩

/-- C4: constructing `Gallery` from three non-empty strings succeeds and
stores the values unchanged; if any field is an empty string or a
non-string value, construction raises (the constructor performs no network
activity: it only runs the three setters). -/
theorem C4_construction :
    (∀ l k s : String, l ≠ "" → k ≠ "" → s ≠ "" →
      Gallery.init (.str l) (.str k) (.str s) = .ok ⟨l, k, s⟩) ∧
    (∀ v₁ v₂ v₃ : PyVal, ¬validCred v₁ ∨ ¬validCred v₂ ∨ ¬validCred v₃ →
      ∃ e, Gallery.init v₁ v₂ v₃ = .error e) := by
  constructor
  · intro l k s hl hk hs
    unfold Gallery.init
    rw [set_api_location_ok l hl, except_bind_ok,
      set_api_key_ok k hk, except_bind_ok, set_api_secret_ok s hs]
    rfl
  · intro v₁ v₂ v₃ hv
    rcases hv with h | h | h
    · obtain ⟨e, he⟩ := set_api_location_err v₁ h
      refine ⟨e, ?_⟩
      unfold Gallery.init
      rw [he, except_bind_err]
    · cases h1 : set_api_location v₁ with
      | error e => exact ⟨e, by unfold Gallery.init; rw [h1, except_bind_err]⟩
      | ok l =>
        obtain ⟨e, he⟩ := set_api_key_err v₂ h
        refine ⟨e, ?_⟩
        unfold Gallery.init
        rw [h1, except_bind_ok, he, except_bind_err]
    · cases h1 : set_api_location v₁ with
      | error e => exact ⟨e, by unfold Gallery.init; rw [h1, except_bind_err]⟩
      | ok l =>
        cases h2 : set_api_key v₂ with
        | error e =>
            exact ⟨e, by unfold Gallery.init; rw [h1, except_bind_ok, h2, except_bind_err]⟩
        | ok k =>
          obtain ⟨e, he⟩ := set_api_secret_err v₃ h
          refine ⟨e, ?_⟩
          unfold Gallery.init
          rw [h1, except_bind_ok, h2, except_bind_ok, he, except_bind_err]

theorem C4_construction_witness :
    (Gallery.init (.str "a") (.str "b") (.str "c") = .ok ⟨"a", "b", "c"⟩) ∧
    (∃ e, Gallery.init (.str "") (.str "b") (.str "c") = .error e) :=
  ⟨C4_construction.1 "a" "b" "c" (by decide) (by decide) (by decide),
   C4_construction.2 (.str "") (.str "b") (.str "c")
     (Or.inl (by intro hv; obtain ⟨s, h, hne⟩ := hv; cases h; exact hne rfl))⟩

set_option maxRecDepth 10000 in
/-- C5, counterexample: a non-ASCII parameter value does NOT make
`generate_signature` raise: `urlencode` percent-encodes the UTF-8 bytes of
`"é"` into the ASCII string `%C3%A9`, so the ASCII-encoding step succeeds
and a signature is produced. -/
theorem C5_counterexample :
    (generate_signature "s" "GET" "u" [("a", "é")]).isOk = true ∧
    allAscii "é" = false := by
  refine ⟨by decide, by decide⟩

/-- C5, amended: only a non-ASCII `api_secret` (or method) can make the
ASCII-encoding step fail: non-ASCII parameter values and URLs are
percent-encoded into pure ASCII before the `bytes(..., "ascii")` calls, so
for any parameter mapping the call succeeds exactly when `api_secret` is
all-ASCII (given an ASCII method), and aborts with a `UnicodeEncodeError`
(producing no signature) when `api_secret` is not. -/
theorem C5_amended_ascii (api_secret http_method url : String)
    (params : List (String × String))
    (hm : allAscii (pyUpper http_method) = true) :
    (allAscii api_secret = true →
      ∃ bs, generate_signature api_secret http_method url params = .ok bs) ∧
    (allAscii api_secret = false →
      generate_signature api_secret http_method url params =
        .error (.unicodeEncodeError "ascii codec cannot encode character")) :=
  ⟨fun hs => ⟨_, (generate_signature_cases api_secret http_method url params hm).1 hs⟩,
   (generate_signature_cases api_secret http_method url params hm).2⟩

theorem C5_amended_ascii_witness :
    (∃ bs, generate_signature "s" "GET" "u" [("a", "1")] = .ok bs) ∧
    generate_signature "é" "GET" "u" [("a", "1")] =
      .error (.unicodeEncodeError "ascii codec cannot encode character") :=
  ⟨(C5_amended_ascii "s" "GET" "u" [("a", "1")] (by decide)).1 (by decide),
   (C5_amended_ascii "é" "GET" "u" [("a", "1")] (by decide)).2 (by decide)⟩

/-- C6: `generate_signature` is invariant under the iteration order of its
parameter mapping: two lists holding the same key-value pairs (in any
order) produce the same signature, because the pairs are sorted before
encoding. -/
theorem C6_order_invariance (api_secret http_method url : String)
    {l₁ l₂ : List (String × String)} (h : l₁.Perm l₂) :
    generate_signature api_secret http_method url l₁ =
      generate_signature api_secret http_method url l₂ := by
  unfold generate_signature signingBaseString
  rw [pySorted_eq_of_perm h]

theorem C6_order_invariance_witness :
    generate_signature "s" "GET" "u" [("b", "2"), ("a", "1")] =
      generate_signature "s" "GET" "u" [("a", "1"), ("b", "2")] :=
  C6_order_invariance "s" "GET" "u" (by decide)

/-- C7: `execute_workflow` without a payload issues a POST carrying only
the OAuth query parameters (signature included) with no JSON body and no
extra header; with a payload `p` the same POST carries JSON body `p` and a
`Content-Type: application/json` header; the query parameters are
identical in both cases. -/
theorem C7_execute_workflow (g : Gallery) (env : Env) (app_id : String)
    (p : PyVal) (hs : allAscii g.api_secret = true) :
    ∃ sig,
      execute_workflow g env app_id none =
        .ok (⟨"POST", g.api_location ++ "/v1/workflows/" ++ app_id ++ "/jobs/",
          signedParams g env sig, [], none⟩, .jsonUtf8) ∧
      execute_workflow g env app_id (some p) =
        .ok (⟨"POST", g.api_location ++ "/v1/workflows/" ++ app_id ++ "/jobs/",
          signedParams g env sig, [("Content-Type", "application/json")],
          some p⟩, .jsonUtf8) := by
  obtain ⟨sig, hsig, hr⟩ := signedRequest_ok g env "POST"
    (g.api_location ++ "/v1/workflows/" ++ app_id ++ "/jobs/") [] none
    (by decide) hs
  obtain ⟨sig2, hsig2, hr2⟩ := signedRequest_ok g env "POST"
    (g.api_location ++ "/v1/workflows/" ++ app_id ++ "/jobs/")
    [("Content-Type", "application/json")] (some p) (by decide) hs
  have hse : sig2 = sig := by
    rw [hsig] at hsig2
    exact (Except.ok.inj hsig2).symm
  refine ⟨sig, ?_, ?_⟩
  · simp only [execute_workflow]
    rw [hr, except_bind_ok]
    rfl
  · simp only [execute_workflow]
    rw [hr2, except_bind_ok, hse]
    rfl

theorem C7_execute_workflow_witness :
    ∃ sig,
      execute_workflow ⟨"u", "k", "s"⟩ ⟨fun _ => 0, 0⟩ "a" none =
        .ok (⟨"POST", "u" ++ "/v1/workflows/" ++ "a" ++ "/jobs/",
          signedParams ⟨"u", "k", "s"⟩ ⟨fun _ => 0, 0⟩ sig, [], none⟩,
          .jsonUtf8) ∧
      execute_workflow ⟨"u", "k", "s"⟩ ⟨fun _ => 0, 0⟩ "a" (some (.int 1)) =
        .ok (⟨"POST", "u" ++ "/v1/workflows/" ++ "a" ++ "/jobs/",
          signedParams ⟨"u", "k", "s"⟩ ⟨fun _ => 0, 0⟩ sig,
          [("Content-Type", "application/json")], some (.int 1)⟩,
          .jsonUtf8) :=
  C7_execute_workflow ⟨"u", "k", "s"⟩ ⟨fun _ => 0, 0⟩ "a" (.int 1) (by decide)

/-- C8: `get_job_output` hands its response body to the raw UTF-8 decode
pipeline (`output.content.decode("utf8")`, no `json.loads`), while every
other endpoint operation hands its body to the JSON pipeline
(`json.loads(output.content.decode("utf8"))`); every operation returns the
pair of the raw response and the decoded body (here: the request together
with its decode mode). -/
theorem C8_decode_modes (g : Gallery) (env : Env)
    (app_id job_id output_id : String) (p : PyVal)
    (hs : allAscii g.api_secret = true) :
    (∃ r, get_job_output g env job_id output_id = .ok (r, .rawUtf8)) ∧
    (∃ r, subscription g env = .ok (r, .jsonUtf8)) ∧
    (∃ r, questions g env app_id = .ok (r, .jsonUtf8)) ∧
    (∃ r, execute_workflow g env app_id none = .ok (r, .jsonUtf8)) ∧
    (∃ r, execute_workflow g env app_id (some p) = .ok (r, .jsonUtf8)) ∧
    (∃ r, get_jobs g env app_id = .ok (r, .jsonUtf8)) ∧
    (∃ r, get_job_status g env job_id = .ok (r, .jsonUtf8)) ∧
    (∃ r, get_workflows g env = .ok (r, .jsonUtf8)) ∧
    (∃ r, get_app g env app_id = .ok (r, .jsonUtf8)) := by
  refine ⟨?_, ?_, ?_, ?_, ?_, ?_, ?_, ?_, ?_⟩
  · obtain ⟨sig, -, hr⟩ := signedRequest_ok g env "GET"
      (g.api_location ++ "/v1/jobs/" ++ job_id ++ "/output/" ++ output_id ++ "/")
      [] none (by decide) hs
    exact ⟨_, by simp only [get_job_output]; rw [hr, except_bind_ok]; rfl⟩
  · obtain ⟨sig, -, hr⟩ := signedRequest_ok g env "GET"
      (g.api_location ++ "/v1/workflows/subscription/") [] none (by decide) hs
    exact ⟨_, by simp only [subscription]; rw [hr, except_bind_ok]; rfl⟩
  · obtain ⟨sig, -, hr⟩ := signedRequest_ok g env "GET"
      (g.api_location ++ "/v1/workflows/" ++ app_id ++ "/questions/") [] none
      (by decide) hs
    exact ⟨_, by simp only [questions]; rw [hr, except_bind_ok]; rfl⟩
  · obtain ⟨sig, -, hr⟩ := signedRequest_ok g env "POST"
      (g.api_location ++ "/v1/workflows/" ++ app_id ++ "/jobs/") [] none
      (by decide) hs
    exact ⟨_, by simp only [execute_workflow]; rw [hr, except_bind_ok]; rfl⟩
  · obtain ⟨sig, -, hr⟩ := signedRequest_ok g env "POST"
      (g.api_location ++ "/v1/workflows/" ++ app_id ++ "/jobs/")
      [("Content-Type", "application/json")] (some p) (by decide) hs
    exact ⟨_, by simp only [execute_workflow]; rw [hr, except_bind_ok]; rfl⟩
  · obtain ⟨sig, -, hr⟩ := signedRequest_ok g env "GET"
      (g.api_location ++ "/v1/workflows/" ++ app_id ++ "/jobs/") [] none
      (by decide) hs
    exact ⟨_, by simp only [get_jobs]; rw [hr, except_bind_ok]; rfl⟩
  · obtain ⟨sig, -, hr⟩ := signedRequest_ok g env "GET"
      (g.api_location ++ "/v1/jobs/" ++ job_id ++ "/") [] none (by decide) hs
    exact ⟨_, by simp only [get_job_status]; rw [hr, except_bind_ok]; rfl⟩
  · obtain ⟨sig, -, hr⟩ := signedRequest_ok g env "GET"
      (g.api_location ++ "/admin/v1/workflows/") [] none (by decide) hs
    exact ⟨_, by simp only [get_workflows]; rw [hr, except_bind_ok]; rfl⟩
  · obtain ⟨sig, -, hr⟩ := signedRequest_ok g env "GET"
      (g.api_location ++ "/v1/workflows/" ++ app_id ++ "/package/") [] none
      (by decide) hs
    exact ⟨_, by simp only [get_app]; rw [hr, except_bind_ok]; rfl⟩

theorem C8_decode_modes_witness :
    (∃ r, get_job_output ⟨"u", "k", "s"⟩ ⟨fun _ => 0, 0⟩ "j" "o" =
      .ok (r, .rawUtf8)) ∧
    (∃ r, subscription ⟨"u", "k", "s"⟩ ⟨fun _ => 0, 0⟩ = .ok (r, .jsonUtf8)) ∧
    (∃ r, questions ⟨"u", "k", "s"⟩ ⟨fun _ => 0, 0⟩ "a" = .ok (r, .jsonUtf8)) ∧
    (∃ r, execute_workflow ⟨"u", "k", "s"⟩ ⟨fun _ => 0, 0⟩ "a" none =
      .ok (r, .jsonUtf8)) ∧
    (∃ r, execute_workflow ⟨"u", "k", "s"⟩ ⟨fun _ => 0, 0⟩ "a" (some (.int 1)) =
      .ok (r, .jsonUtf8)) ∧
    (∃ r, get_jobs ⟨"u", "k", "s"⟩ ⟨fun _ => 0, 0⟩ "a" = .ok (r, .jsonUtf8)) ∧
    (∃ r, get_job_status ⟨"u", "k", "s"⟩ ⟨fun _ => 0, 0⟩ "j" =
      .ok (r, .jsonUtf8)) ∧
    (∃ r, get_workflows ⟨"u", "k", "s"⟩ ⟨fun _ => 0, 0⟩ = .ok (r, .jsonUtf8)) ∧
    (∃ r, get_app ⟨"u", "k", "s"⟩ ⟨fun _ => 0, 0⟩ "a" = .ok (r, .jsonUtf8)) :=
  C8_decode_modes ⟨"u", "k", "s"⟩ ⟨fun _ => 0, 0⟩ "a" "j" "o" (.int 1)
    (by decide)

/-- C9: `generate_nonce` returns a string of length exactly `n` (default
5) whose characters are all alphanumeric; the alphabet it draws from has
exactly 62 distinct characters, so the uniformly chosen index stream
(modelling `random.choice`) induces a uniform choice over `[A-Za-z0-9]` at
every position. -/
theorem C9_generate_nonce (choice : Nat → Fin 62) (n : Nat) :
    (generate_nonce choice n).length = n ∧
    (generate_nonce choice).length = 5 ∧
    (∀ c ∈ (generate_nonce choice n).data, c.isAlphanum = true) ∧
    tmp_string.length = 62 ∧ tmp_string.Nodup := by
  have hlen : ∀ m : Nat, (generate_nonce choice m).length = m := by
    intro m
    show ((List.range m).map _).length = m
    rw [List.length_map, List.length_range]
  refine ⟨hlen n, hlen 5, ?_, by decide, by decide⟩
  intro c hc
  have hc2 : c ∈ (List.range n).map
      (fun i => tmp_string.getD ((choice i) : Nat) 'A') := hc
  rw [List.mem_map] at hc2
  obtain ⟨i, -, rfl⟩ := hc2
  have hlt : ((choice i) : Nat) < tmp_string.length := by
    have h62 : tmp_string.length = 62 := by decide
    rw [h62]
    exact (choice i).isLt
  have hmem : tmp_string.getD ((choice i) : Nat) 'A' ∈ tmp_string := by
    rw [List.getD_eq_getElem tmp_string 'A' hlt]
    exact List.getElem_mem hlt
  have hall : ∀ x ∈ tmp_string, x.isAlphanum = true := by decide
  exact hall _ hmem

/-- C10 (implicit): `generate_signature` returns the unmodified
`base64.b64encode` output as a `bytes` value (not a text string), and
every endpoint operation stores exactly that `bytes` value verbatim as the
`"oauth_signature"` entry of its request parameters; moreover each request
carries the five OAuth parameters in their original insertion order —
`sorted` built a separate list inside `generate_signature`, leaving the
`params` mapping unmodified. -/
theorem C10_signature_bytes (g : Gallery) (env : Env)
    (app_id job_id output_id : String) (p : PyVal)
    (hs : allAscii g.api_secret = true) :
    (∃ sig,
      generate_signature g.api_secret "GET" (g.api_location ++ "/v1/workflows/subscription/")
        (build_oauth_params g env) = .ok sig ∧
      subscription g env =
        .ok (⟨"GET", g.api_location ++ "/v1/workflows/subscription/",
          (build_oauth_params g env).map (fun kv => (kv.1, PyVal.str kv.2)) ++
            [("oauth_signature", PyVal.bytes sig)], [], none⟩,
          .jsonUtf8)) ∧
    (∃ sig,
      generate_signature g.api_secret "GET" (g.api_location ++ "/v1/workflows/" ++ app_id ++ "/questions/")
        (build_oauth_params g env) = .ok sig ∧
      questions g env app_id =
        .ok (⟨"GET", g.api_location ++ "/v1/workflows/" ++ app_id ++ "/questions/",
          (build_oauth_params g env).map (fun kv => (kv.1, PyVal.str kv.2)) ++
            [("oauth_signature", PyVal.bytes sig)], [], none⟩,
          .jsonUtf8)) ∧
    (∃ sig,
      generate_signature g.api_secret "POST" (g.api_location ++ "/v1/workflows/" ++ app_id ++ "/jobs/")
        (build_oauth_params g env) = .ok sig ∧
      execute_workflow g env app_id none =
        .ok (⟨"POST", g.api_location ++ "/v1/workflows/" ++ app_id ++ "/jobs/",
          (build_oauth_params g env).map (fun kv => (kv.1, PyVal.str kv.2)) ++
            [("oauth_signature", PyVal.bytes sig)], [], none⟩,
          .jsonUtf8)) ∧
    (∃ sig,
      generate_signature g.api_secret "POST" (g.api_location ++ "/v1/workflows/" ++ app_id ++ "/jobs/")
        (build_oauth_params g env) = .ok sig ∧
      execute_workflow g env app_id (some p) =
        .ok (⟨"POST", g.api_location ++ "/v1/workflows/" ++ app_id ++ "/jobs/",
          (build_oauth_params g env).map (fun kv => (kv.1, PyVal.str kv.2)) ++
            [("oauth_signature", PyVal.bytes sig)], [("Content-Type", "application/json")], some p⟩,
          .jsonUtf8)) ∧
    (∃ sig,
      generate_signature g.api_secret "GET" (g.api_location ++ "/v1/workflows/" ++ app_id ++ "/jobs/")
        (build_oauth_params g env) = .ok sig ∧
      get_jobs g env app_id =
        .ok (⟨"GET", g.api_location ++ "/v1/workflows/" ++ app_id ++ "/jobs/",
          (build_oauth_params g env).map (fun kv => (kv.1, PyVal.str kv.2)) ++
            [("oauth_signature", PyVal.bytes sig)], [], none⟩,
          .jsonUtf8)) ∧
    (∃ sig,
      generate_signature g.api_secret "GET" (g.api_location ++ "/v1/jobs/" ++ job_id ++ "/")
        (build_oauth_params g env) = .ok sig ∧
      get_job_status g env job_id =
        .ok (⟨"GET", g.api_location ++ "/v1/jobs/" ++ job_id ++ "/",
          (build_oauth_params g env).map (fun kv => (kv.1, PyVal.str kv.2)) ++
            [("oauth_signature", PyVal.bytes sig)], [], none⟩,
          .jsonUtf8)) ∧
    (∃ sig,
      generate_signature g.api_secret "GET" (g.api_location ++ "/v1/jobs/" ++ job_id ++ "/output/" ++ output_id ++ "/")
        (build_oauth_params g env) = .ok sig ∧
      get_job_output g env job_id output_id =
        .ok (⟨"GET", g.api_location ++ "/v1/jobs/" ++ job_id ++ "/output/" ++ output_id ++ "/",
          (build_oauth_params g env).map (fun kv => (kv.1, PyVal.str kv.2)) ++
            [("oauth_signature", PyVal.bytes sig)], [], none⟩,
          .rawUtf8)) ∧
    (∃ sig,
      generate_signature g.api_secret "GET" (g.api_location ++ "/admin/v1/workflows/")
        (build_oauth_params g env) = .ok sig ∧
      get_workflows g env =
        .ok (⟨"GET", g.api_location ++ "/admin/v1/workflows/",
          (build_oauth_params g env).map (fun kv => (kv.1, PyVal.str kv.2)) ++
            [("oauth_signature", PyVal.bytes sig)], [], none⟩,
          .jsonUtf8)) ∧
    (∃ sig,
      generate_signature g.api_secret "GET" (g.api_location ++ "/v1/workflows/" ++ app_id ++ "/package/")
        (build_oauth_params g env) = .ok sig ∧
      get_app g env app_id =
        .ok (⟨"GET", g.api_location ++ "/v1/workflows/" ++ app_id ++ "/package/",
          (build_oauth_params g env).map (fun kv => (kv.1, PyVal.str kv.2)) ++
            [("oauth_signature", PyVal.bytes sig)], [], none⟩,
          .jsonUtf8)) := by
  refine ⟨?_, ?_, ?_, ?_, ?_, ?_, ?_, ?_, ?_⟩
  · obtain ⟨sig, hsig, hr⟩ := signedRequest_ok g env "GET"
      (g.api_location ++ "/v1/workflows/subscription/") [] none (by decide) hs
    exact ⟨sig, hsig, by simp only [subscription]; rw [hr, except_bind_ok]; rfl⟩
  · obtain ⟨sig, hsig, hr⟩ := signedRequest_ok g env "GET"
      (g.api_location ++ "/v1/workflows/" ++ app_id ++ "/questions/") [] none (by decide) hs
    exact ⟨sig, hsig, by simp only [questions]; rw [hr, except_bind_ok]; rfl⟩
  · obtain ⟨sig, hsig, hr⟩ := signedRequest_ok g env "POST"
      (g.api_location ++ "/v1/workflows/" ++ app_id ++ "/jobs/") [] none (by decide) hs
    exact ⟨sig, hsig, by simp only [execute_workflow]; rw [hr, except_bind_ok]; rfl⟩
  · obtain ⟨sig, hsig, hr⟩ := signedRequest_ok g env "POST"
      (g.api_location ++ "/v1/workflows/" ++ app_id ++ "/jobs/")
      [("Content-Type", "application/json")] (some p) (by decide) hs
    exact ⟨sig, hsig, by simp only [execute_workflow]; rw [hr, except_bind_ok]; rfl⟩
  · obtain ⟨sig, hsig, hr⟩ := signedRequest_ok g env "GET"
      (g.api_location ++ "/v1/workflows/" ++ app_id ++ "/jobs/") [] none (by decide) hs
    exact ⟨sig, hsig, by simp only [get_jobs]; rw [hr, except_bind_ok]; rfl⟩
  · obtain ⟨sig, hsig, hr⟩ := signedRequest_ok g env "GET"
      (g.api_location ++ "/v1/jobs/" ++ job_id ++ "/") [] none (by decide) hs
    exact ⟨sig, hsig, by simp only [get_job_status]; rw [hr, except_bind_ok]; rfl⟩
  · obtain ⟨sig, hsig, hr⟩ := signedRequest_ok g env "GET"
      (g.api_location ++ "/v1/jobs/" ++ job_id ++ "/output/" ++ output_id ++ "/") [] none (by decide) hs
    exact ⟨sig, hsig, by simp only [get_job_output]; rw [hr, except_bind_ok]; rfl⟩
  · obtain ⟨sig, hsig, hr⟩ := signedRequest_ok g env "GET"
      (g.api_location ++ "/admin/v1/workflows/") [] none (by decide) hs
    exact ⟨sig, hsig, by simp only [get_workflows]; rw [hr, except_bind_ok]; rfl⟩
  · obtain ⟨sig, hsig, hr⟩ := signedRequest_ok g env "GET"
      (g.api_location ++ "/v1/workflows/" ++ app_id ++ "/package/") [] none (by decide) hs
    exact ⟨sig, hsig, by simp only [get_app]; rw [hr, except_bind_ok]; rfl⟩

theorem C10_signature_bytes_witness :
    (∃ sig,
      generate_signature "s" "GET" ("u" ++ "/v1/workflows/subscription/")
        (build_oauth_params ⟨"u", "k", "s"⟩ ⟨fun _ => 0, 0⟩) = .ok sig ∧
      subscription ⟨"u", "k", "s"⟩ ⟨fun _ => 0, 0⟩ =
        .ok (⟨"GET", "u" ++ "/v1/workflows/subscription/",
          (build_oauth_params ⟨"u", "k", "s"⟩ ⟨fun _ => 0, 0⟩).map (fun kv => (kv.1, PyVal.str kv.2)) ++
            [("oauth_signature", PyVal.bytes sig)], [], none⟩,
          .jsonUtf8)) ∧
    (∃ sig,
      generate_signature "s" "GET" ("u" ++ "/v1/workflows/" ++ "a" ++ "/questions/")
        (build_oauth_params ⟨"u", "k", "s"⟩ ⟨fun _ => 0, 0⟩) = .ok sig ∧
      questions ⟨"u", "k", "s"⟩ ⟨fun _ => 0, 0⟩ "a" =
        .ok (⟨"GET", "u" ++ "/v1/workflows/" ++ "a" ++ "/questions/",
          (build_oauth_params ⟨"u", "k", "s"⟩ ⟨fun _ => 0, 0⟩).map (fun kv => (kv.1, PyVal.str kv.2)) ++
            [("oauth_signature", PyVal.bytes sig)], [], none⟩,
          .jsonUtf8)) ∧
    (∃ sig,
      generate_signature "s" "POST" ("u" ++ "/v1/workflows/" ++ "a" ++ "/jobs/")
        (build_oauth_params ⟨"u", "k", "s"⟩ ⟨fun _ => 0, 0⟩) = .ok sig ∧
      execute_workflow ⟨"u", "k", "s"⟩ ⟨fun _ => 0, 0⟩ "a" none =
        .ok (⟨"POST", "u" ++ "/v1/workflows/" ++ "a" ++ "/jobs/",
          (build_oauth_params ⟨"u", "k", "s"⟩ ⟨fun _ => 0, 0⟩).map (fun kv => (kv.1, PyVal.str kv.2)) ++
            [("oauth_signature", PyVal.bytes sig)], [], none⟩,
          .jsonUtf8)) ∧
    (∃ sig,
      generate_signature "s" "POST" ("u" ++ "/v1/workflows/" ++ "a" ++ "/jobs/")
        (build_oauth_params ⟨"u", "k", "s"⟩ ⟨fun _ => 0, 0⟩) = .ok sig ∧
      execute_workflow ⟨"u", "k", "s"⟩ ⟨fun _ => 0, 0⟩ "a" (some (.int 1)) =
        .ok (⟨"POST", "u" ++ "/v1/workflows/" ++ "a" ++ "/jobs/",
          (build_oauth_params ⟨"u", "k", "s"⟩ ⟨fun _ => 0, 0⟩).map (fun kv => (kv.1, PyVal.str kv.2)) ++
            [("oauth_signature", PyVal.bytes sig)], [("Content-Type", "application/json")], some (.int 1)⟩,
          .jsonUtf8)) ∧
    (∃ sig,
      generate_signature "s" "GET" ("u" ++ "/v1/workflows/" ++ "a" ++ "/jobs/")
        (build_oauth_params ⟨"u", "k", "s"⟩ ⟨fun _ => 0, 0⟩) = .ok sig ∧
      get_jobs ⟨"u", "k", "s"⟩ ⟨fun _ => 0, 0⟩ "a" =
        .ok (⟨"GET", "u" ++ "/v1/workflows/" ++ "a" ++ "/jobs/",
          (build_oauth_params ⟨"u", "k", "s"⟩ ⟨fun _ => 0, 0⟩).map (fun kv => (kv.1, PyVal.str kv.2)) ++
            [("oauth_signature", PyVal.bytes sig)], [], none⟩,
          .jsonUtf8)) ∧
    (∃ sig,
      generate_signature "s" "GET" ("u" ++ "/v1/jobs/" ++ "j" ++ "/")
        (build_oauth_params ⟨"u", "k", "s"⟩ ⟨fun _ => 0, 0⟩) = .ok sig ∧
      get_job_status ⟨"u", "k", "s"⟩ ⟨fun _ => 0, 0⟩ "j" =
        .ok (⟨"GET", "u" ++ "/v1/jobs/" ++ "j" ++ "/",
          (build_oauth_params ⟨"u", "k", "s"⟩ ⟨fun _ => 0, 0⟩).map (fun kv => (kv.1, PyVal.str kv.2)) ++
            [("oauth_signature", PyVal.bytes sig)], [], none⟩,
          .jsonUtf8)) ∧
    (∃ sig,
      generate_signature "s" "GET" ("u" ++ "/v1/jobs/" ++ "j" ++ "/output/" ++ "o" ++ "/")
        (build_oauth_params ⟨"u", "k", "s"⟩ ⟨fun _ => 0, 0⟩) = .ok sig ∧
      get_job_output ⟨"u", "k", "s"⟩ ⟨fun _ => 0, 0⟩ "j" "o" =
        .ok (⟨"GET", "u" ++ "/v1/jobs/" ++ "j" ++ "/output/" ++ "o" ++ "/",
          (build_oauth_params ⟨"u", "k", "s"⟩ ⟨fun _ => 0, 0⟩).map (fun kv => (kv.1, PyVal.str kv.2)) ++
            [("oauth_signature", PyVal.bytes sig)], [], none⟩,
          .rawUtf8)) ∧
    (∃ sig,
      generate_signature "s" "GET" ("u" ++ "/admin/v1/workflows/")
        (build_oauth_params ⟨"u", "k", "s"⟩ ⟨fun _ => 0, 0⟩) = .ok sig ∧
      get_workflows ⟨"u", "k", "s"⟩ ⟨fun _ => 0, 0⟩ =
        .ok (⟨"GET", "u" ++ "/admin/v1/workflows/",
          (build_oauth_params ⟨"u", "k", "s"⟩ ⟨fun _ => 0, 0⟩).map (fun kv => (kv.1, PyVal.str kv.2)) ++
            [("oauth_signature", PyVal.bytes sig)], [], none⟩,
          .jsonUtf8)) ∧
    (∃ sig,
      generate_signature "s" "GET" ("u" ++ "/v1/workflows/" ++ "a" ++ "/package/")
        (build_oauth_params ⟨"u", "k", "s"⟩ ⟨fun _ => 0, 0⟩) = .ok sig ∧
      get_app ⟨"u", "k", "s"⟩ ⟨fun _ => 0, 0⟩ "a" =
        .ok (⟨"GET", "u" ++ "/v1/workflows/" ++ "a" ++ "/package/",
          (build_oauth_params ⟨"u", "k", "s"⟩ ⟨fun _ => 0, 0⟩).map (fun kv => (kv.1, PyVal.str kv.2)) ++
            [("oauth_signature", PyVal.bytes sig)], [], none⟩,
          .jsonUtf8)) :=
  C10_signature_bytes ⟨"u", "k", "s"⟩ ⟨fun _ => 0, 0⟩ "a" "j" "o" (.int 1)
    (by decide)

end AlteryxGallery
